import Mathlib

/-!
Shallow embedding of the Kiali business layer (business/tls.go and the
business layer bootstrap file) together with proofs about its behaviour.

External collaborators (the Kubernetes client, the Kiali cache, the config
package, the mtls scoring package, the Jaeger client constructor) are
modelled as explicit function-valued parameters gathered in environment
records; the Go functions of the repository are translated one by one into
Lean functions over those environments.  Go pointer fields that may be nil
are `Option`; Go `(value, error)` returns are `Except`.
-/

namespace Kiali

/-- Payload of a `core_v1.ConfigMap`; opaque to this layer, only handed to
the external parser `GetIstioConfigMap`. -/
structure ConfigMap where
  payload : String
  deriving DecidableEq

/-- Result of parsing the Istio config map (external `kubernetes.GetIstioConfigMap`);
only its `enableAutoMtls` field is consumed here. -/
structure MeshConfig where
  enableAutoMtls : Bool
  deriving DecidableEq

/-- Mirrors the Go method `mc.GetEnableAutoMtls()`. -/
def MeshConfig.GetEnableAutoMtls (mc : MeshConfig) : Bool :=
  mc.enableAutoMtls

/-- A `security_v1beta1.PeerAuthentication` object, reduced to the metadata
this layer inspects (its namespace). -/
structure PeerAuthentication where
  inNamespace : String
  name : String
  deriving DecidableEq

/-- A `networking_v1alpha3.DestinationRule` object, reduced to the metadata
this layer inspects (its namespace). -/
structure DestinationRule where
  inNamespace : String
  name : String
  deriving DecidableEq

/-- A `models.Namespace`: only its `Name` is read by this layer. -/
structure NamespaceInfo where
  name : String
  deriving DecidableEq

/-- `business.IstioConfigCriteria`, the fields set by tls.go. -/
structure IstioConfigCriteria where
  allNamespaces : Bool := false
  includeDestinationRules : Bool := false
  includePeerAuthentications : Bool := false
  deriving DecidableEq

/-- The part of `models.IstioConfigList` consumed by tls.go. -/
structure IstioConfigList where
  destinationRules : List DestinationRule := []
  peerAuthentications : List PeerAuthentication := []
  deriving DecidableEq

/-- `mtls.MtlsStatus` (package util/mtls): the record handed to the external
scoring capability, with exactly the fields tls.go sets.  Go zero values
give the defaults. -/
structure MtlsStatus where
  inNamespace : String := ""
  peerAuthentications : List PeerAuthentication := []
  destinationRules : List DestinationRule := []
  autoMtlsEnabled : Bool := false
  allowPermissive : Bool := false
  deriving DecidableEq

/-- Return value of the external scoring capability
(`MeshMtlsStatus()` / `NamespaceMtlsStatus()`); only `OverallStatus` is read. -/
structure TlsStatus where
  overallStatus : String
  deriving DecidableEq

/-- Modelled from the spec: `models.MTLSStatus` is "a value object
{optional namespace, status label}" (the struct itself lives outside the
given sources; tls.go only constructs it, setting the `Status` field).
A Go composite literal that does not mention the namespace leaves it at
its unset zero value, i.e. `none`. -/
structure MTLSStatus where
  namespaceTag : Option String := none
  status : String := ""
  deriving DecidableEq

/-- The process-wide Kiali cache (external collaborator `cache.KialiCache`),
reduced to the capabilities the given sources consult. -/
structure KialiCache where
  checkNamespace : String → Bool
  checkIstioResource : String → Bool
  getConfigMap : String → String → Except String ConfigMap

/-- `business.TLSService`: the only mutable state of the service handle is
the lazily resolved auto-mTLS flag (`enabledAutoMtls *bool`). -/
structure TLSService where
  enabledAutoMtls : Option Bool := none
  deriving DecidableEq

/-- The ambient environment of a `TLSService` call: configuration values,
the global `kialiCache` variable, and the external collaborators reached
through the service's clients and sibling services. -/
structure TLSEnv where
  istioNamespace : String
  configMapName : String
  rootNamespace : String
  kialiCache : Option KialiCache
  k8sGetConfigMap : String → String → Except String ConfigMap
  getIstioConfigMap : ConfigMap → Except String MeshConfig
  getIstioConfigList : IstioConfigCriteria → Except String IstioConfigList
  namespaceGetNamespaces : Except String (List NamespaceInfo)
  meshMtlsStatus : MtlsStatus → TlsStatus
  namespaceMtlsStatus : MtlsStatus → TlsStatus

/-- Modelled from the spec: `kubernetes.FilterPeerAuthenticationByNamespace`
"filters peer-authentication objects to those living in" the given
namespace. -/
def FilterPeerAuthenticationByNamespace (ns : String)
    (pas : List PeerAuthentication) : List PeerAuthentication :=
  pas.filter (fun pa => pa.inNamespace == ns)

/-- Modelled from the spec: `kubernetes.FilterDestinationRulesByNamespaces`
"filters destination rules to the given namespace set". -/
def FilterDestinationRulesByNamespaces (nss : List String)
    (drs : List DestinationRule) : List DestinationRule :=
  drs.filter (fun dr => nss.contains dr.inNamespace)

/-- Modelled from the spec: `config.IsRootNamespace` tests whether the given
namespace is "the designated namespace whose security policies apply
mesh-wide" (the configured root namespace). -/
def IsRootNamespace (env : TLSEnv) (ns : String) : Bool :=
  ns == env.rootNamespace

/-- `business.IsNamespaceCached`: `kialiCache != nil && kialiCache.CheckNamespace(namespace)`. -/
def IsNamespaceCached (kc : Option KialiCache) (ns : String) : Bool :=
  match kc with
  | some c => c.checkNamespace ns
  | none => false

/-- `business.IsResourceCached`: starts from `IsNamespaceCached` and consults
`CheckIstioResource` only when the resource kind is non-empty.  The `none`
fallback inside the branch is unreachable (the guard is false when the
cache handle is nil). -/
def IsResourceCached (kc : Option KialiCache) (ns resource : String) : Bool :=
  let ok := IsNamespaceCached kc ns
  if ok && resource != "" then
    match kc with
    | some c => c.checkIstioResource resource
    | none => false
  else ok

/-- The config-map fetch inside `hasAutoMTLSEnabled`: through the cache when
`IsNamespaceCached(cfg.IstioNamespace)` holds, through the live client
otherwise. -/
def istioConfigMapLookup (env : TLSEnv) : Except String ConfigMap :=
  match env.kialiCache with
  | some c =>
    if c.checkNamespace env.istioNamespace then
      c.getConfigMap env.istioNamespace env.configMapName
    else
      env.k8sGetConfigMap env.istioNamespace env.configMapName
  | none => env.k8sGetConfigMap env.istioNamespace env.configMapName

/-- Does the config-map lookup or the subsequent parse fail in this
environment?  (The two error branches of `hasAutoMTLSEnabled`.) -/
def autoMtlsLookupOrParseFails (env : TLSEnv) : Bool :=
  match istioConfigMapLookup env with
  | Except.error _ => true
  | Except.ok cm =>
    match env.getIstioConfigMap cm with
    | Except.error _ => true
    | Except.ok _ => false

/-- `TLSService.hasAutoMTLSEnabled` (pointer receiver): returns the cached
flag when present; otherwise fetches and parses the Istio config map,
returning `true` on either failure without touching the cache field, and
caching the parsed value on success.  The returned `TLSService` is the
state of the receiver after the call. -/
def hasAutoMTLSEnabled (env : TLSEnv) (svc : TLSService) : Bool × TLSService :=
  match svc.enabledAutoMtls with
  | some b => (b, svc)
  | none =>
    match istioConfigMapLookup env with
    | Except.error _ => (true, svc)
    | Except.ok istioConfig =>
      match env.getIstioConfigMap istioConfig with
      | Except.error _ => (true, svc)
      | Except.ok mc =>
        let autoMtls := mc.GetEnableAutoMtls
        (autoMtls, { svc with enabledAutoMtls := some autoMtls })

/-- `TLSService.getNamespaces`: names of the namespaces returned by the
sibling namespace service, propagating its error. -/
def getNamespaces (env : TLSEnv) : Except String (List String) :=
  match env.namespaceGetNamespaces with
  | Except.error e => Except.error e
  | Except.ok nss => Except.ok (nss.map (fun n => n.name))

/-- `TLSService.MeshWidemTLSStatus` (pointer receiver).  Returns the
`(models.MTLSStatus, error)` pair and the receiver state after the call. -/
def MeshWidemTLSStatus (env : TLSEnv) (svc : TLSService)
    (namespaces : List String) : Except String MTLSStatus × TLSService :=
  let criteria : IstioConfigCriteria :=
    { allNamespaces := true
      includeDestinationRules := true
      includePeerAuthentications := true }
  match env.getIstioConfigList criteria with
  | Except.error err => (Except.error err, svc)
  | Except.ok istioConfigList =>
    let pas := FilterPeerAuthenticationByNamespace env.rootNamespace
      istioConfigList.peerAuthentications
    let drs := FilterDestinationRulesByNamespaces namespaces
      istioConfigList.destinationRules
    let auto := hasAutoMTLSEnabled env svc
    let mtlsStatus : MtlsStatus :=
      { peerAuthentications := pas
        destinationRules := drs
        autoMtlsEnabled := auto.1
        allowPermissive := false }
    (Except.ok { status := (env.meshMtlsStatus mtlsStatus).overallStatus }, auto.2)

/-- The `mtls.MtlsStatus` value that `NamespaceWidemTLSStatus` hands to the
scoring capability: peer authentications filtered to the namespace, forced
empty when it is the root namespace; destination rules filtered to the
full namespace list. -/
def namespaceWideScoringInput (env : TLSEnv) (ns : String) (nss : List String)
    (icl : IstioConfigList) (auto : Bool) : MtlsStatus :=
  let pas := FilterPeerAuthenticationByNamespace ns icl.peerAuthentications
  let pasFinal := if IsRootNamespace env ns then [] else pas
  let drs := FilterDestinationRulesByNamespaces nss icl.destinationRules
  { inNamespace := ns
    peerAuthentications := pasFinal
    destinationRules := drs
    autoMtlsEnabled := auto
    allowPermissive := false }

/-- `TLSService.NamespaceWidemTLSStatus` with the state of the receiver copy
made explicit.  The Go method has a VALUE receiver, so this state is the
state of the local copy; the caller's handle is unchanged by the call
(see `NamespaceWidemTLSStatus`).  A namespace-listing failure is swallowed:
the zero `models.MTLSStatus` is returned with a nil error. -/
def NamespaceWidemTLSStatusFull (env : TLSEnv) (svc : TLSService)
    (ns : String) : Except String MTLSStatus × TLSService :=
  match getNamespaces env with
  | Except.error _ => (Except.ok {}, svc)
  | Except.ok nss =>
    let criteria : IstioConfigCriteria :=
      { allNamespaces := true
        includeDestinationRules := true
        includePeerAuthentications := true }
    match env.getIstioConfigList criteria with
    | Except.error err2 => (Except.error err2, svc)
    | Except.ok istioConfigList =>
      let auto := hasAutoMTLSEnabled env svc
      let mtlsStatus := namespaceWideScoringInput env ns nss istioConfigList auto.1
      (Except.ok { status := (env.namespaceMtlsStatus mtlsStatus).overallStatus },
        auto.2)

/-- `TLSService.NamespaceWidemTLSStatus` as the caller sees it: the method's
value receiver means mutations of the receiver copy are discarded when the
call returns, so only the result escapes. -/
def NamespaceWidemTLSStatus (env : TLSEnv) (svc : TLSService) (ns : String) :
    Except String MTLSStatus :=
  (NamespaceWidemTLSStatusFull env svc ns).1

/-- The client factory (external `kubernetes.ClientFactory`), opaque here. -/
structure ClientFactory where
  id : Nat
  deriving DecidableEq

/-- The Jaeger tracing client (external `jaeger.ClientInterface`), opaque here. -/
structure JaegerClient where
  id : Nat
  deriving DecidableEq

/-- The package-level mutable variables of the business layer bootstrap file
that the given sources read or write (`excludedWorkloads`, `clientFactory`,
`kialiCache`) plus the fired flag of the `sync.Once` guard.  All start at
their Go zero values. -/
structure GlobalState where
  excludedWorkloads : Option (List String) := none
  clientFactory : Option ClientFactory := none
  kialiCache : Option KialiCache := none
  onceDone : Bool := false

/-- Environment of `initKialiCache`: configuration values and the outcomes
of the external calls it makes. -/
structure InitEnv where
  excludeWorkloads : List String
  cacheEnabled : Bool
  allNamespacesAccessible : Bool
  getClientFactory : Except String ClientFactory
  getNamespacesInit : Except String (List NamespaceInfo)
  newKialiCache : ClientFactory → List String → Except String KialiCache

/-- The initial namespace seed list built inside `initKialiCache`: empty when
all namespaces are accessible, otherwise the names returned by the
throwaway namespace service (propagating its error). -/
def namespaceSeedList (env : InitEnv) : Except String (List String) :=
  if !env.allNamespacesAccessible then
    match env.getNamespacesInit with
    | Except.error e => Except.error e
    | Except.ok nss => Except.ok (nss.map (fun n => n.name))
  else
    Except.ok []

/-- `business.initKialiCache`: fills `excludedWorkloads` if unset, builds the
client factory, and (when caching is enabled) seeds and constructs the
Kiali cache.  Every failure logs and returns, leaving the remaining
globals as they were — in particular `kialiCache` is never set on a
failure path. -/
def initKialiCache (env : InitEnv) (g : GlobalState) : GlobalState :=
  let g1 :=
    match g.excludedWorkloads with
    | none => { g with excludedWorkloads := some env.excludeWorkloads }
    | some _ => g
  match env.getClientFactory with
  | Except.error _ => g1
  | Except.ok userClient =>
    let g2 := { g1 with clientFactory := some userClient }
    if env.cacheEnabled then
      match namespaceSeedList env with
      | Except.error _ => g2
      | Except.ok seed =>
        match env.newKialiCache userClient seed with
        | Except.error _ => g2
        | Except.ok c => { g2 with kialiCache := some c }
    else g2

/-- `business.Start`: `once.Do(initKialiCache)`.  The `sync.Once` contract —
the body runs exactly once, atomically with respect to other `Do` calls —
is modelled by the `onceDone` flag guarding one atomic state transition. -/
def Start (env : InitEnv) (g : GlobalState) : GlobalState :=
  if g.onceDone then g else { initKialiCache env g with onceDone := true }

/-- Does the one-time setup fail at some step in this environment (client
factory construction, initial namespace enumeration, or cache
construction)?  Mirrors the early-return conditions of `initKialiCache`. -/
def initSetupFails (env : InitEnv) : Bool :=
  match env.getClientFactory with
  | Except.error _ => true
  | Except.ok cf =>
    env.cacheEnabled &&
      (match namespaceSeedList env with
        | Except.error _ => true
        | Except.ok seed =>
          match env.newKialiCache cf seed with
          | Except.error _ => true
          | Except.ok _ => false)

/-- One `Start` call together with a counter of how many times the guarded
setup body actually executed. -/
def StartCounted (env : InitEnv) (gc : GlobalState × Nat) : GlobalState × Nat :=
  if gc.1.onceDone then gc
  else ({ initKialiCache env gc.1 with onceDone := true }, gc.2 + 1)

/-- A sequence of `Start` calls (one per caller, in some interleaving order;
each call is atomic by the `sync.Once` contract), threading the global
state and the execution counter. -/
def runStarts (envs : List InitEnv) (gc : GlobalState × Nat) : GlobalState × Nat :=
  match envs with
  | [] => gc
  | e :: es => runStarts es (StartCounted e gc)

/-- The `jaegerLoader` closure built inside `business.Get`: reads and writes
the global `jaegerClient` variable; constructs the client from the current
caller's token only when the global is nil, resetting it to nil on a
construction error. -/
def jaegerLoader (newClient : String → Except String JaegerClient)
    (token : String) (jc : Option JaegerClient) :
    Except String JaegerClient × Option JaegerClient :=
  match jc with
  | some c => (Except.ok c, some c)
  | none =>
    match newClient token with
    | Except.ok c => (Except.ok c, some c)
    | Except.error e => (Except.error e, none)

/-- A sequence of loader invocations (one per request, with that request's
token), threading the global `jaegerClient` variable and counting the
successful constructions. -/
def runJaegerLoaders (newClient : String → Except String JaegerClient)
    (tokens : List String) (jc : Option JaegerClient) :
    Option JaegerClient × Nat :=
  match tokens with
  | [] => (jc, 0)
  | t :: ts =>
    let step := jaegerLoader newClient t jc
    let constructed : Nat :=
      match jc, newClient t with
      | none, Except.ok _ => 1
      | _, _ => 0
    let rest := runJaegerLoaders newClient ts step.2
    (rest.1, constructed + rest.2)

/-! Concrete instances used by witnesses and counterexamples. -/

/-- A cache instance that reports every namespace and resource kind cached. -/
def sampleCache : KialiCache :=
  { checkNamespace := fun _ => true
    checkIstioResource := fun _ => true
    getConfigMap := fun _ _ => Except.ok { payload := "mesh-config" } }

/-- A healthy TLS environment: every external call succeeds, auto-mTLS parses
to `false`, the root namespace is "istio-system". -/
def envOk : TLSEnv :=
  { istioNamespace := "istio-system"
    configMapName := "istio"
    rootNamespace := "istio-system"
    kialiCache := none
    k8sGetConfigMap := fun _ _ => Except.ok { payload := "mesh-config" }
    getIstioConfigMap := fun _ => Except.ok { enableAutoMtls := false }
    getIstioConfigList := fun _ =>
      Except.ok
        { destinationRules := []
          peerAuthentications := [{ inNamespace := "default", name := "pa1" }] }
    namespaceGetNamespaces :=
      Except.ok [{ name := "default" }, { name := "istio-system" }]
    meshMtlsStatus := fun _ => { overallStatus := "MTLS_NOT_ENABLED" }
    namespaceMtlsStatus := fun _ => { overallStatus := "MTLS_NOT_ENABLED" } }

/-- Like `envOk` but the config-map lookup through the live client fails. -/
def envLookupFail : TLSEnv :=
  { envOk with k8sGetConfigMap := fun _ _ => Except.error "configmap unavailable" }

/-- Like `envOk` but the namespace listing fails. -/
def envNsListFail : TLSEnv :=
  { envOk with namespaceGetNamespaces := Except.error "cannot list namespaces" }

/-- Like `envOk` but the Istio config listing fails. -/
def envIclFail : TLSEnv :=
  { envOk with getIstioConfigList := fun _ => Except.error "istio config list failed" }

/-- An init environment whose client-factory construction fails. -/
def initEnvFail : InitEnv :=
  { excludeWorkloads := []
    cacheEnabled := true
    allNamespacesAccessible := true
    getClientFactory := Except.error "client factory construction failed"
    getNamespacesInit := Except.ok []
    newKialiCache := fun _ _ => Except.error "cache construction failed" }

/-- A Jaeger constructor that derives the client from the token it is given,
so distinct identities would yield distinct clients. -/
def newJaegerByToken : String → Except String JaegerClient :=
  fun tok => Except.ok { id := tok.length }

/-! Theorems. -/

/-- C2: for every namespace and resource kind, `IsResourceCached` true implies
`IsNamespaceCached` true, in every cache state including the nil state. -/
theorem isResourceCached_implies_isNamespaceCached (kc : Option KialiCache)
    (ns resource : String) (h : IsResourceCached kc ns resource = true) :
    IsNamespaceCached kc ns = true := by
  cases hns : IsNamespaceCached kc ns with
  | true => rfl
  | false => simp [IsResourceCached, hns] at h

/-- Witness for C2 at a concrete cache, namespace and resource kind. -/
theorem isResourceCached_implies_isNamespaceCached_witness :
    IsResourceCached (some sampleCache) "default" "Pod" = true
    ∧ IsNamespaceCached (some sampleCache) "default" = true :=
  ⟨rfl, isResourceCached_implies_isNamespaceCached (some sampleCache) "default" "Pod" rfl⟩

/-- C10: whenever the namespace membership check succeeds, an empty resource
kind is treated as cached — `IsResourceCached ns ""` is true and does not
depend on the resource-kind check at all (replacing `checkIstioResource`
by any function leaves the answer true). -/
theorem isResourceCached_empty_kind (kc : Option KialiCache) (ns : String)
    (h : IsNamespaceCached kc ns = true) :
    IsResourceCached kc ns "" = true
    ∧ ∀ c f, kc = some c →
        IsResourceCached (some { c with checkIstioResource := f }) ns "" = true := by
  constructor
  · simp [IsResourceCached, h]
  · intro c f hc
    subst hc
    have hcn : c.checkNamespace ns = true := by simpa [IsNamespaceCached] using h
    simp [IsResourceCached, IsNamespaceCached, hcn]

/-- Witness for C10 at a concrete cache whose resource-kind check rejects
everything: the empty kind is still reported cached. -/
theorem isResourceCached_empty_kind_witness :
    IsNamespaceCached (some sampleCache) "default" = true
    ∧ IsResourceCached (some { sampleCache with checkIstioResource := fun _ => false })
        "default" "" = true :=
  ⟨rfl,
    (isResourceCached_empty_kind (some sampleCache) "default" rfl).2
      sampleCache (fun _ => false) rfl⟩

/-- C3: when the flag is not yet resolved and the config-map lookup or its
parse fails, `hasAutoMTLSEnabled` returns `true` and leaves the service
state unchanged (the failure result is not stored, so a later call
performs the lookup again). -/
theorem hasAutoMTLSEnabled_fail_open_uncached (env : TLSEnv) (svc : TLSService)
    (hnone : svc.enabledAutoMtls = none)
    (hfail : autoMtlsLookupOrParseFails env = true) :
    hasAutoMTLSEnabled env svc = (true, svc) := by
  cases hl : istioConfigMapLookup env with
  | error e => simp [hasAutoMTLSEnabled, hnone, hl]
  | ok cm =>
    cases hp : env.getIstioConfigMap cm with
    | error e => simp [hasAutoMTLSEnabled, hnone, hl, hp]
    | ok mc => simp [autoMtlsLookupOrParseFails, hl, hp] at hfail

/-- Witness for C3: a fresh service in an environment whose config-map lookup
fails resolves to `true` with its cache field still unset. -/
theorem hasAutoMTLSEnabled_fail_open_uncached_witness :
    ({ enabledAutoMtls := none } : TLSService).enabledAutoMtls = none
    ∧ autoMtlsLookupOrParseFails envLookupFail = true
    ∧ hasAutoMTLSEnabled envLookupFail { enabledAutoMtls := none }
        = (true, { enabledAutoMtls := none }) :=
  ⟨rfl, rfl,
    hasAutoMTLSEnabled_fail_open_uncached envLookupFail { enabledAutoMtls := none } rfl rfl⟩

/-- C6: when the given namespace is the root namespace, the peer-authentication
set of the scoring input built by `NamespaceWidemTLSStatus` is empty,
whatever peer-authentication objects the config listing returned. -/
theorem namespaceWide_root_namespace_empty_peerauth (env : TLSEnv) (ns : String)
    (nss : List String) (icl : IstioConfigList) (auto : Bool)
    (h : IsRootNamespace env ns = true) :
    (namespaceWideScoringInput env ns nss icl auto).peerAuthentications = [] := by
  simp [namespaceWideScoringInput, h]

/-- Witness for C6: the root namespace of `envOk` with a config listing that
does contain a peer authentication living in the root namespace. -/
theorem namespaceWide_root_namespace_empty_peerauth_witness :
    IsRootNamespace envOk "istio-system" = true
    ∧ (namespaceWideScoringInput envOk "istio-system" ["istio-system"]
        { destinationRules := []
          peerAuthentications := [{ inNamespace := "istio-system", name := "root-pa" }] }
        true).peerAuthentications = [] :=
  ⟨rfl,
    namespaceWide_root_namespace_empty_peerauth envOk "istio-system" ["istio-system"]
      { destinationRules := []
        peerAuthentications := [{ inNamespace := "istio-system", name := "root-pa" }] }
      true rfl⟩

/-- C7: a namespace-listing failure inside `NamespaceWidemTLSStatus` is
swallowed — the zero `models.MTLSStatus` is returned with a nil error —
while a failure of the subsequent Istio-config listing is propagated as
an error. -/
theorem namespaceWide_error_policy (env : TLSEnv) (svc : TLSService) (ns : String) :
    (∀ e, env.namespaceGetNamespaces = Except.error e →
        NamespaceWidemTLSStatus env svc ns = Except.ok {})
    ∧ ∀ nss err2, env.namespaceGetNamespaces = Except.ok nss →
        env.getIstioConfigList
            { allNamespaces := true
              includeDestinationRules := true
              includePeerAuthentications := true } = Except.error err2 →
        NamespaceWidemTLSStatus env svc ns = Except.error err2 := by
  constructor
  · intro e he
    simp [NamespaceWidemTLSStatus, NamespaceWidemTLSStatusFull, getNamespaces, he]
  · intro nss err2 hn hi
    simp [NamespaceWidemTLSStatus, NamespaceWidemTLSStatusFull, getNamespaces, hn, hi]

/-- Witness for C7: both branches at concrete environments — the listing
failure yields the zero status with no error, the config failure yields
that error. -/
theorem namespaceWide_error_policy_witness :
    (envNsListFail.namespaceGetNamespaces = Except.error "cannot list namespaces"
      ∧ NamespaceWidemTLSStatus envNsListFail { enabledAutoMtls := none } "default"
          = Except.ok {})
    ∧ NamespaceWidemTLSStatus envIclFail { enabledAutoMtls := none } "default"
        = Except.error "istio config list failed" :=
  ⟨⟨rfl,
      (namespaceWide_error_policy envNsListFail { enabledAutoMtls := none } "default").1
        "cannot list namespaces" rfl⟩,
    (namespaceWide_error_policy envIclFail { enabledAutoMtls := none } "default").2
      [{ name := "default" }, { name := "istio-system" }] "istio config list failed"
      rfl rfl⟩

/-- C1 counterexample: at a concrete, fully successful environment,
`NamespaceWidemTLSStatus envOk svc "default"` returns a status whose
namespace tag is `none`, not `some "default"` — the Go return statement
sets only the `Status` field of `models.MTLSStatus`, so the returned value
never carries the namespace.  This refutes the half of the claim that says
the result of `NamespaceWideStatus(ns)` carries `ns`. -/
theorem namespaceWide_result_untagged_cex :
    (NamespaceWidemTLSStatus envOk { enabledAutoMtls := none } "default").map
        MTLSStatus.namespaceTag = Except.ok none
    ∧ (none : Option String) ≠ some "default" :=
  ⟨rfl, by simp⟩

/-- C1 amended: neither public operation tags its returned
`models.MTLSStatus` with a namespace — every successful result of
`MeshWidemTLSStatus` and of `NamespaceWidemTLSStatus` has namespace tag
`none`; the namespace given to `NamespaceWidemTLSStatus` is carried only
on the internal `mtls.MtlsStatus` record handed to the scoring
capability. -/
theorem mtls_status_namespace_tagging (env : TLSEnv) (svc : TLSService)
    (ns : String) (nss : List String) (icl : IstioConfigList) (auto : Bool) :
    (∀ m, (MeshWidemTLSStatus env svc nss).1 = Except.ok m → m.namespaceTag = none)
    ∧ (∀ m, NamespaceWidemTLSStatus env svc ns = Except.ok m → m.namespaceTag = none)
    ∧ (namespaceWideScoringInput env ns nss icl auto).inNamespace = ns := by
  refine ⟨?_, ?_, rfl⟩
  · intro m hm
    cases hicl : env.getIstioConfigList
        { allNamespaces := true
          includeDestinationRules := true
          includePeerAuthentications := true } with
    | error e =>
      simp [MeshWidemTLSStatus, hicl] at hm
    | ok icl2 =>
      simp [MeshWidemTLSStatus, hicl] at hm
      rw [← hm]
  · intro m hm
    cases hns : env.namespaceGetNamespaces with
    | error e =>
      simp [NamespaceWidemTLSStatus, NamespaceWidemTLSStatusFull, getNamespaces,
        hns] at hm
      rw [← hm]
    | ok nsl =>
      cases hicl : env.getIstioConfigList
          { allNamespaces := true
            includeDestinationRules := true
            includePeerAuthentications := true } with
      | error e =>
        simp [NamespaceWidemTLSStatus, NamespaceWidemTLSStatusFull, getNamespaces,
          hns, hicl] at hm
      | ok icl2 =>
        simp [NamespaceWidemTLSStatus, NamespaceWidemTLSStatusFull, getNamespaces,
          hns, hicl] at hm
        rw [← hm]

/-- Witness for C1 amended, evaluating both operations at `envOk`. -/
theorem mtls_status_namespace_tagging_witness :
    (MeshWidemTLSStatus envOk { enabledAutoMtls := none } ["default"]).1
        = Except.ok { namespaceTag := none, status := "MTLS_NOT_ENABLED" }
    ∧ ({ namespaceTag := none, status := "MTLS_NOT_ENABLED" } : MTLSStatus).namespaceTag
        = none :=
  ⟨rfl,
    (mtls_status_namespace_tagging envOk { enabledAutoMtls := none } "default"
        ["default"] {} false).1
      { namespaceTag := none, status := "MTLS_NOT_ENABLED" } rfl⟩

/-- Every resolution on a handle that already carries the flag returns the
cached value with the handle unchanged, whatever the environment (so no
lookup can be involved). -/
theorem hasAutoMTLSEnabled_cached (env : TLSEnv) (svc : TLSService) (b : Bool)
    (h : svc.enabledAutoMtls = some b) : hasAutoMTLSEnabled env svc = (b, svc) := by
  simp [hasAutoMTLSEnabled, h]

/-- C8 counterexample: a successful resolution during a
`NamespaceWidemTLSStatus` call is NOT cached on the caller's service
handle.  The method has a value receiver, so the flag is stored only on
the receiver copy (whose final state, made explicit by
`NamespaceWidemTLSStatusFull`, is `some false` here) and is discarded when
the call returns; the caller still holds `{ enabledAutoMtls := none }`,
and a later resolution consults the (now failing) environment again and
fails open to `true` instead of returning the previously resolved
`false`. -/
theorem autoMtls_cache_lost_value_receiver_cex :
    (NamespaceWidemTLSStatusFull envOk { enabledAutoMtls := none } "default").2
        = { enabledAutoMtls := some false }
    ∧ NamespaceWidemTLSStatus envOk { enabledAutoMtls := none } "default"
        = Except.ok { namespaceTag := none, status := "MTLS_NOT_ENABLED" }
    ∧ hasAutoMTLSEnabled envLookupFail { enabledAutoMtls := none }
        = (true, { enabledAutoMtls := none })
    ∧ (true : Bool) ≠ false :=
  ⟨rfl, rfl, rfl, by simp⟩

/-- C8 amended: once the flag has been stored on the service handle — which a
successful resolution through the pointer-receiver `MeshWidemTLSStatus`
does, but a resolution inside the value-receiver `NamespaceWidemTLSStatus`
does not persist to the caller's handle — every later resolution during
the lifetime of that handle (directly, or inside later mesh-wide or
namespace-wide calls) returns the stored value and leaves the handle
unchanged, for any later environment, hence without looking the config
object up again. -/
theorem autoMtls_sticky_after_meshWide (envA envB : TLSEnv) (svc : TLSService)
    (nss nss2 : List String) (ns : String) (b : Bool)
    (h : ((MeshWidemTLSStatus envA svc nss).2).enabledAutoMtls = some b) :
    hasAutoMTLSEnabled envB (MeshWidemTLSStatus envA svc nss).2
        = (b, (MeshWidemTLSStatus envA svc nss).2)
    ∧ (MeshWidemTLSStatus envB (MeshWidemTLSStatus envA svc nss).2 nss2).2
        = (MeshWidemTLSStatus envA svc nss).2
    ∧ (NamespaceWidemTLSStatusFull envB (MeshWidemTLSStatus envA svc nss).2 ns).2
        = (MeshWidemTLSStatus envA svc nss).2 := by
  generalize hgen : (MeshWidemTLSStatus envA svc nss).2 = s at h ⊢
  have h1 := hasAutoMTLSEnabled_cached envB s b h
  refine ⟨h1, ?_, ?_⟩
  · cases hicl : envB.getIstioConfigList
        { allNamespaces := true
          includeDestinationRules := true
          includePeerAuthentications := true } with
    | error e => simp [MeshWidemTLSStatus, hicl]
    | ok icl => simp [MeshWidemTLSStatus, hicl, h1]
  · cases hn : envB.namespaceGetNamespaces with
    | error e => simp [NamespaceWidemTLSStatusFull, getNamespaces, hn]
    | ok nsl =>
      cases hicl : envB.getIstioConfigList
          { allNamespaces := true
            includeDestinationRules := true
            includePeerAuthentications := true } with
      | error e => simp [NamespaceWidemTLSStatusFull, getNamespaces, hn, hicl]
      | ok icl => simp [NamespaceWidemTLSStatusFull, getNamespaces, hn, hicl, h1]

/-- Witness for C8 amended: after a mesh-wide call over `envOk` cached
`false`, a later resolution in a failing environment still returns
`false` with the handle unchanged. -/
theorem autoMtls_sticky_after_meshWide_witness :
    ((MeshWidemTLSStatus envOk { enabledAutoMtls := none } ["default"]).2).enabledAutoMtls
        = some false
    ∧ hasAutoMTLSEnabled envLookupFail
          (MeshWidemTLSStatus envOk { enabledAutoMtls := none } ["default"]).2
        = (false, (MeshWidemTLSStatus envOk { enabledAutoMtls := none } ["default"]).2) :=
  ⟨rfl,
    (autoMtls_sticky_after_meshWide envOk envLookupFail { enabledAutoMtls := none }
        ["default"] [] "default" false rfl).1⟩

/-- When the one-time setup fails at any step, the global cache handle is
exactly what it was before the call. -/
theorem initKialiCache_fail_keeps_cache (env : InitEnv) (g : GlobalState)
    (hfail : initSetupFails env = true) :
    (initKialiCache env g).kialiCache = g.kialiCache := by
  cases hcf : env.getClientFactory with
  | error e =>
    cases hex : g.excludedWorkloads <;> simp [initKialiCache, hcf, hex]
  | ok cf =>
    simp only [initSetupFails, hcf, Bool.and_eq_true] at hfail
    obtain ⟨hce, hrest⟩ := hfail
    cases hseed : namespaceSeedList env with
    | error e =>
      cases hex : g.excludedWorkloads <;>
        simp [initKialiCache, hcf, hce, hseed, hex]
    | ok seed =>
      cases hnc : env.newKialiCache cf seed with
      | error e =>
        cases hex : g.excludedWorkloads <;>
          simp [initKialiCache, hcf, hce, hseed, hnc, hex]
      | ok c => simp [hseed, hnc] at hrest

/-- A `Start` call on a state whose guard has already fired is a no-op. -/
theorem Start_done (env : InitEnv) (g : GlobalState) (h : g.onceDone = true) :
    Start env g = g := by
  simp [Start, h]

/-- C4: if the setup run by `Start` fails at any step, then starting from the
pristine global state the cache handle is left unset, `IsNamespaceCached`
is false for every namespace, and any later `Start` call is a no-op — the
one-time guard has fired, so the setup is never re-run. -/
theorem start_failure_uncached_mode (env env2 : InitEnv) (g : GlobalState)
    (hg : g.kialiCache = none) (hdone : g.onceDone = false)
    (hfail : initSetupFails env = true) :
    (Start env g).kialiCache = none
    ∧ (∀ ns, IsNamespaceCached (Start env g).kialiCache ns = false)
    ∧ Start env2 (Start env g) = Start env g := by
  have hstart : Start env g = { initKialiCache env g with onceDone := true } := by
    simp [Start, hdone]
  have hkc : (Start env g).kialiCache = none := by
    rw [hstart]
    show (initKialiCache env g).kialiCache = none
    rw [initKialiCache_fail_keeps_cache env g hfail, hg]
  have hsd : (Start env g).onceDone = true := by rw [hstart]
  refine ⟨hkc, ?_, ?_⟩
  · intro ns
    rw [hkc]
    rfl
  · exact Start_done env2 (Start env g) hsd

/-- Witness for C4 at a concrete failing environment (client-factory
construction fails) and the pristine global state. -/
theorem start_failure_uncached_mode_witness :
    ({} : GlobalState).kialiCache = none
    ∧ ({} : GlobalState).onceDone = false
    ∧ initSetupFails initEnvFail = true
    ∧ (Start initEnvFail {}).kialiCache = none
    ∧ IsNamespaceCached (Start initEnvFail {}).kialiCache "default" = false
    ∧ Start initEnvFail (Start initEnvFail {}) = Start initEnvFail {} := by
  refine ⟨rfl, rfl, rfl, ?_, ?_, ?_⟩
  · exact (start_failure_uncached_mode initEnvFail initEnvFail {} rfl rfl rfl).1
  · exact (start_failure_uncached_mode initEnvFail initEnvFail {} rfl rfl rfl).2.1 "default"
  · exact (start_failure_uncached_mode initEnvFail initEnvFail {} rfl rfl rfl).2.2

/-- Once the guard has fired, any further sequence of `Start` calls changes
nothing and performs no setup execution. -/
theorem runStarts_done (envs : List InitEnv) (g : GlobalState) (c : Nat)
    (h : g.onceDone = true) : runStarts envs (g, c) = (g, c) := by
  induction envs with
  | nil => rfl
  | cons e es ih => simp [runStarts, StartCounted, h, ih]

/-- C5: for any number of callers of `Start` (in any interleaving order, each
call atomic by the `sync.Once` contract) starting from a state where the
guard has not fired, the underlying setup executes exactly once, the final
global state observed by all callers equals the state after a single
`Start`, and every subsequent call is a no-op. -/
theorem start_once_exactly (e : InitEnv) (es : List InitEnv) (g : GlobalState)
    (hdone : g.onceDone = false) :
    runStarts (e :: es) (g, 0) = (Start e g, 1)
    ∧ ∀ e2, Start e2 (Start e g) = Start e g := by
  have hs : Start e g = { initKialiCache e g with onceDone := true } := by
    simp [Start, hdone]
  have hsd : (Start e g).onceDone = true := by rw [hs]
  constructor
  · have h1 : StartCounted e (g, 0) = (Start e g, 1) := by
      simp [StartCounted, hdone, hs]
    simp only [runStarts]
    rw [h1]
    exact runStarts_done es (Start e g) 1 hsd
  · intro e2
    exact Start_done e2 (Start e g) hsd

/-- Witness for C5: three concurrent callers, one setup execution, final state
equal to the one-call state. -/
theorem start_once_exactly_witness :
    ({} : GlobalState).onceDone = false
    ∧ runStarts [initEnvFail, initEnvFail, initEnvFail] ({}, 0)
        = (Start initEnvFail {}, 1) :=
  ⟨rfl,
    (start_once_exactly initEnvFail [initEnvFail, initEnvFail] {} rfl).1⟩

/-- Once a client is cached in the global variable, any further sequence of
loader invocations returns it unchanged and performs no construction. -/
theorem runJaegerLoaders_cached (newClient : String → Except String JaegerClient)
    (tokens : List String) (c : JaegerClient) :
    runJaegerLoaders newClient tokens (some c) = (some c, 0) := by
  induction tokens with
  | nil => rfl
  | cons t ts ih => simp [runJaegerLoaders, jaegerLoader, ih]

/-- Starting from the nil global, any sequence of loader invocations performs
at most one successful construction. -/
theorem runJaegerLoaders_none_le_one (newClient : String → Except String JaegerClient)
    (tokens : List String) :
    (runJaegerLoaders newClient tokens none).2 ≤ 1 := by
  induction tokens with
  | nil => simp [runJaegerLoaders]
  | cons t ts ih =>
    cases hn : newClient t with
    | ok c => simp [runJaegerLoaders, jaegerLoader, hn, runJaegerLoaders_cached]
    | error e => simpa [runJaegerLoaders, jaegerLoader, hn] using ih

/-- C9: the Jaeger client is constructed at most once per process.  A first
successful construction — from the triggering caller's token — caches the
client; every later loader invocation returns that same client unchanged
regardless of the later caller's token; a failed construction leaves the
global nil, so a later invocation retries; and any invocation sequence
from the nil state performs at most one successful construction. -/
theorem jaeger_client_constructed_once (newClient : String → Except String JaegerClient)
    (t : String) (c : JaegerClient) (tokens : List String)
    (hok : newClient t = Except.ok c) :
    jaegerLoader newClient t none = (Except.ok c, some c)
    ∧ (∀ t2, jaegerLoader newClient t2 (some c) = (Except.ok c, some c))
    ∧ runJaegerLoaders newClient tokens (some c) = (some c, 0)
    ∧ (∀ t2 e2, newClient t2 = Except.error e2 →
        jaegerLoader newClient t2 none = (Except.error e2, none))
    ∧ ∀ ts, (runJaegerLoaders newClient ts none).2 ≤ 1 := by
  refine ⟨?_, ?_, runJaegerLoaders_cached newClient tokens c, ?_,
    fun ts => runJaegerLoaders_none_le_one newClient ts⟩
  · simp [jaegerLoader, hok]
  · intro t2
    rfl
  · intro t2 e2 he
    simp [jaegerLoader, he]

/-- Witness for C9: the first caller's token determines the client; the second
caller, whose token would construct a different client, receives the first
caller's client. -/
theorem jaeger_client_constructed_once_witness :
    newJaegerByToken "token-alice" = Except.ok { id := 11 }
    ∧ jaegerLoader newJaegerByToken "token-alice" none
        = (Except.ok { id := 11 }, some { id := 11 })
    ∧ jaegerLoader newJaegerByToken "token-bob" (some { id := 11 })
        = (Except.ok { id := 11 }, some { id := 11 })
    ∧ newJaegerByToken "token-bob" = Except.ok { id := 9 } :=
  ⟨rfl,
    (jaeger_client_constructed_once newJaegerByToken "token-alice" { id := 11 } [] rfl).1,
    (jaeger_client_constructed_once newJaegerByToken "token-alice" { id := 11 } [] rfl).2.1
      "token-bob",
    rfl⟩

end Kiali
